import Mathlib

set_option maxHeartbeats 1000000

/-!
Shallow embedding of the actix message-delivery core.

Source files embedded:
- src/envelope.rs : LocalEnvelope, RemoteEnvelope, Envelope packing, EnvelopFuture
- src/address/envelope.rs : the address-module RemoteEnvelope variant (no
  cancel_on_drop field)
- src/address/sync_address.rs : SyncAddress send / try_send / call / call_fut

The underlying channel (src/address/sync_channel.rs) and the Request /
RequestFut internals are not part of the analysed sources; where a claim
needs them they are modelled from the spec and marked as such in their doc
comments.

Rust Option::take is modelled by reading the field and setting it to none;
the handler dispatch and the execution context are external collaborators
(spec section 6), so `handle` reports whether the handler dispatch was
invoked and returns the continuation it would have spawned via ctx.spawn.
-/

/-- One-shot reply channel viewed through its producer half
(futures::sync::oneshot::Sender / futures::unsync::oneshot::Sender).
`consumerDropped` records that the Receiver half has been dropped
(Sender::is_canceled); `received` is the value delivered to the consumer,
if any. -/
structure Oneshot (α : Type) where
  consumerDropped : Bool
  received : Option α
deriving Repr

/-- Sender::is_canceled: true iff the consumer half has been dropped. -/
def Oneshot.is_canceled (ch : Oneshot α) : Bool :=
  ch.consumerDropped

/-- Sender::send: delivers the value unless the consumer half is gone, in
which case the channel is unchanged and the failure is reported in the
second component (in Rust the value comes back as Err(v); each call site in
the embedded code discards that result). -/
def Oneshot.send (ch : Oneshot α) (v : α) : Oneshot α × Bool :=
  if ch.consumerDropped then (ch, false)
  else ({ ch with received := some v }, true)

/-- RemoteEnvelope from src/envelope.rs: one optional message payload, an
optional reply sink carrying Result of Item / Error (modelled as Except E I),
and the cancel_on_drop flag fixed at construction. -/
structure RemoteEnvelope (M I E : Type) where
  msg : Option M
  tx : Option (Oneshot (Except E I))
  cancel_on_drop : Bool
deriving Repr

/-- LocalEnvelope from src/envelope.rs: identical shape to RemoteEnvelope,
with the unsync oneshot sender; both oneshot flavours behave the same in
this model. -/
structure LocalEnvelope (M I E : Type) where
  msg : Option M
  tx : Option (Oneshot (Except E I))
  cancel_on_drop : Bool
deriving Repr

/-- EnvelopFuture from src/envelope.rs: the continuation spawned on the
context after the handler dispatch; it owns the reply sink taken from the
envelope (EnvelopFutureItem collapses the Local/Remote sender distinction,
which is irrelevant to behaviour here). -/
structure EnvelopFuture (I E : Type) where
  tx : Option (Oneshot (Except E I))
deriving Repr

/-- The guard of the early return in handle:
tx.is_some() && self.cancel_on_drop && tx.as_ref().unwrap().is_canceled(). -/
def cancelGuard (tx : Option (Oneshot (Except E I))) (cod : Bool) : Bool :=
  tx.isSome && cod && (match tx with
    | some t => t.is_canceled
    | none => false)

/-- RemoteEnvelope::handle (src/envelope.rs lines 175-192). Returns the
envelope state after the call, whether the handler dispatch
(Handler::handle) was invoked, and the EnvelopFuture passed to ctx.spawn,
if any. self.tx.take() runs first; the early return fires when the sink is
present, cancel_on_drop is set and the consumer is gone; then
self.msg.take() decides whether to dispatch. -/
def RemoteEnvelope.handle (e : RemoteEnvelope M I E) :
    RemoteEnvelope M I E × Bool × Option (EnvelopFuture I E) :=
  if cancelGuard e.tx e.cancel_on_drop then
    ({ e with tx := none }, false, none)
  else
    match e.msg with
    | some _ => ({ e with tx := none, msg := none }, true, some { tx := e.tx })
    | none => ({ e with tx := none }, false, none)

/-- LocalEnvelope::handle (src/envelope.rs lines 116-134): same algorithm
as RemoteEnvelope::handle. -/
def LocalEnvelope.handle (e : LocalEnvelope M I E) :
    LocalEnvelope M I E × Bool × Option (EnvelopFuture I E) :=
  if cancelGuard e.tx e.cancel_on_drop then
    ({ e with tx := none }, false, none)
  else
    match e.msg with
    | some _ => ({ e with tx := none, msg := none }, true, some { tx := e.tx })
    | none => ({ e with tx := none }, false, none)

/-- ToEnvelope::pack for Context (src/envelope.rs lines 38-49): explicit
cancel_on_drop argument. -/
def Context.pack (msg : M) (tx : Option (Oneshot (Except E I)))
    (cancel_on_drop : Bool) : RemoteEnvelope M I E :=
  { msg := some msg, tx := tx, cancel_on_drop := cancel_on_drop }

/-- ToEnvelope::pack_msg for Context (src/envelope.rs lines 51-61):
always sets cancel_on_drop to true. -/
def Context.pack_msg (msg : M) (tx : Option (Oneshot (Except E I))) :
    RemoteEnvelope M I E :=
  { msg := some msg, tx := tx, cancel_on_drop := true }

/-- RemoteEnvelope::new (src/envelope.rs lines 146-156): explicit
cancel_on_drop argument. -/
def RemoteEnvelope.new (msg : M) (tx : Option (Oneshot (Except E I)))
    (cancel_on_drop : Bool) : RemoteEnvelope M I E :=
  { msg := some msg, tx := tx, cancel_on_drop := cancel_on_drop }

/-- RemoteEnvelope::envelope (src/envelope.rs lines 158-166): always sets
cancel_on_drop to true. -/
def RemoteEnvelope.envelope (msg : M) (tx : Option (Oneshot (Except E I))) :
    RemoteEnvelope M I E :=
  { msg := some msg, tx := tx, cancel_on_drop := true }

/-- Envelope::local (src/envelope.rs lines 74-85): builds a LocalEnvelope
with an explicit cancel_on_drop argument. -/
def Envelope.local (msg : M) (tx : Option (Oneshot (Except E I)))
    (cancel_on_drop : Bool) : LocalEnvelope M I E :=
  { msg := some msg, tx := tx, cancel_on_drop := cancel_on_drop }

/-- The address-module RemoteEnvelope (src/address/envelope.rs lines
58-62): no cancel_on_drop field. -/
structure AddrRemoteEnvelope (M I E : Type) where
  msg : Option M
  tx : Option (Oneshot (Except E I))
deriving Repr

/-- RemoteEnvelope::handle from src/address/envelope.rs (lines 92-102):
the canceled-consumer skip is unconditional; on dispatch the taken reply
sink is handed to the response (fut.handle(ctx, tx)), returned here as the
third component when the handler was invoked. -/
def AddrRemoteEnvelope.handle (e : AddrRemoteEnvelope M I E) :
    AddrRemoteEnvelope M I E × Bool × Option (Oneshot (Except E I)) :=
  if e.tx.isSome && (match e.tx with
      | some t => t.is_canceled
      | none => false) then
    ({ e with tx := none }, false, none)
  else
    match e.msg with
    | some _ => ({ e with tx := none, msg := none }, true, e.tx)
    | none => ({ e with tx := none }, false, none)

/-- Iterated delivery: call handle n times in sequence on the same
envelope, collecting the number of handler invocations and the list of
spawned continuations. -/
def RemoteEnvelope.handleN (e : RemoteEnvelope M I E) :
    Nat → RemoteEnvelope M I E × Nat × List (EnvelopFuture I E)
  | 0 => (e, 0, [])
  | Nat.succ n =>
    let r := e.handle
    let rest := RemoteEnvelope.handleN r.1 n
    (rest.1, (if r.2.1 then 1 else 0) + rest.2.1,
      (match r.2.2 with
        | some f => [f]
        | none => []) ++ rest.2.2)

/-- Outcome of one poll_response call on the handler's Response, supplied
by the external handler (spec section 6 treats it as an opaque producer of
results): the Ok(Async::Ready(val)), Ok(Async::NotReady) and Err(err)
arms of the match in EnvelopFuture::poll. -/
inductive PollOutcome (I E : Type) where
  | ready (v : I)
  | notReady
  | failed (e : E)
deriving Repr

/-- What EnvelopFuture::poll returns to the execution loop:
Ok(Async::Ready(())), Ok(Async::NotReady) or Err(()). -/
inductive PollRes where
  | ready
  | notReady
  | errored
deriving Repr, DecidableEq

/-- EnvelopFuture::poll (src/envelope.rs lines 224-247). On a resolved
response the reply sink is taken (self.tx.take()) and the result is sent
into it with the send result discarded; the middle component records the
send attempt (channel state afterwards and whether the value was
accepted), so a run can count how many sends ever happen. -/
def EnvelopFuture.poll (f : EnvelopFuture I E) (o : PollOutcome I E) :
    EnvelopFuture I E × Option (Oneshot (Except E I) × Bool) × PollRes :=
  match o with
  | .ready v =>
    match f.tx with
    | some ch => ({ tx := none }, some (ch.send (.ok v)), .ready)
    | none => ({ tx := none }, none, .ready)
  | .notReady => (f, none, .notReady)
  | .failed err =>
    match f.tx with
    | some ch => ({ tx := none }, some (ch.send (.error err)), .errored)
    | none => ({ tx := none }, none, .errored)

/-- Number of values pushed into the reply sink over a sequence of polls
with the given response outcomes. -/
def pollRun (f : EnvelopFuture I E) : List (PollOutcome I E) → Nat
  | [] => 0
  | o :: os =>
    let r := f.poll o
    (if r.2.1.isSome then 1 else 0) + pollRun r.1 os

/-- SendError from the address module: Full and Closed both hand the
message back to the caller. -/
inductive SendError (M : Type) where
  | Full (msg : M)
  | Closed (msg : M)
deriving Repr

/-- Modelled from the spec: AddressSender, the cross-thread channel
producer handle from src/address/sync_channel.rs, which is not among the
analysed sources. Per the spec (sections 2, 3 and the glossary) it is a
many-producer single-consumer FIFO queue with bounded or unbounded
capacity and a closed flag that becomes true once the consumer side is
torn down. -/
structure AddressSender (M : Type) where
  queue : List M
  capacity : Option Nat
  closed : Bool
deriving Repr

/-- The channel is at capacity (only a bounded channel can be full). -/
def AddressSender.isFull (tx : AddressSender M) : Bool :=
  match tx.capacity with
  | some c => decide (c ≤ tx.queue.length)
  | none => false

/-- Modelled from the spec: AddressSender::try_send (sync_channel.rs is
not among the analysed sources). Spec section 4.4: enqueue respecting
channel capacity; fails with Full(msg) or with Closed(msg) if the
consumer is gone, the caller regaining ownership of the message. The
second boolean argument of the Rust method is dropped, its semantics
being invisible in the analysed sources. -/
def AddressSender.try_send (tx : AddressSender M) (msg : M) :
    Except (SendError M) (AddressSender M) :=
  if tx.closed then .error (.Closed msg)
  else if tx.isFull then .error (.Full msg)
  else .ok { tx with queue := tx.queue ++ [msg] }

/-- Modelled from the spec: AddressSender::do_send (sync_channel.rs is not
among the analysed sources). Per the doc comment on SyncAddress::send it
ignores receiver capacity and always succeeds unless the consumer is
gone. -/
def AddressSender.do_send (tx : AddressSender M) (msg : M) :
    Except (SendError M) (AddressSender M) :=
  if tx.closed then .error (.Closed msg)
  else .ok { tx with queue := tx.queue ++ [msg] }

/-- The consumer half of the reply channel that AddressSender::send
creates for a call; it is tagged with the message whose reply it awaits. -/
structure Receiver (M : Type) where
  forMsg : M
deriving Repr, DecidableEq

/-- Modelled from the spec: AddressSender::send used by call and call_fut
(sync_channel.rs is not among the analysed sources). Spec section 4.4: on
success the message is enqueued with an attached reply sink and the reply
channel's consumer half is returned; otherwise the enqueue fails with
Full(msg) or Closed(msg) exactly as try_send does. -/
def AddressSender.sendWithReceiver (tx : AddressSender M) (msg : M) :
    Except (SendError M) (AddressSender M × Receiver M) :=
  if tx.closed then .error (.Closed msg)
  else if tx.isFull then .error (.Full msg)
  else .ok ({ tx with queue := tx.queue ++ [msg] }, { forMsg := msg })

/-- Request (src/address/mod.rs, not among the analysed sources; shape
taken from the Request::new(rx, msg) calls in sync_address.rs and spec
section 4.5): it owns the reply channel's consumer half, or a buffered
(sender, message) pair for retry, or neither. -/
structure Request (M : Type) where
  rx : Option (Receiver M)
  buffered : Option (AddressSender M × M)
deriving Repr

/-- RequestFut has the same three-state shape as Request
(sync_address.rs lines 80-86). -/
structure RequestFut (M : Type) where
  rx : Option (Receiver M)
  buffered : Option (AddressSender M × M)
deriving Repr

/-- Modelled from the spec: the Failed state of a Request (spec section
4.5) is the one holding neither a reply consumer nor a buffered message;
it yields a delivery error immediately. -/
def Request.isFailedTerminal (r : Request M) : Bool :=
  r.rx.isNone && r.buffered.isNone

/-- SyncAddress::send (src/address/sync_address.rs lines 36-42):
discards the result of do_send; the caller sees only unit. The channel
state threads through as the second component. -/
def SyncAddress.send (tx : AddressSender M) (msg : M) :
    Unit × AddressSender M :=
  match tx.do_send msg with
  | .ok tx2 => ((), tx2)
  | .error _ => ((), tx)

/-- SyncAddress::try_send (src/address/sync_address.rs lines 48-54):
self.tx.try_send(msg, false). -/
def SyncAddress.try_send (tx : AddressSender M) (msg : M) :
    Except (SendError M) (AddressSender M) :=
  tx.try_send msg

/-- SyncAddress::call (src/address/sync_address.rs lines 59-70): matches
on the immediate enqueue outcome; Ok parks the Request on the reply
consumer, Full buffers the cloned sender with the returned message,
Closed leaves both fields empty. -/
def SyncAddress.call (tx : AddressSender M) (msg : M) :
    Request M × AddressSender M :=
  match tx.sendWithReceiver msg with
  | .ok (tx2, rx) => ({ rx := some rx, buffered := none }, tx2)
  | .error (.Full m) => ({ rx := none, buffered := some (tx, m) }, tx)
  | .error (.Closed _) => ({ rx := none, buffered := none }, tx)

/-- SyncAddress::call_fut (src/address/sync_address.rs lines 75-87): same
dispatch as call, building a RequestFut. -/
def SyncAddress.call_fut (tx : AddressSender M) (msg : M) :
    RequestFut M × AddressSender M :=
  match tx.sendWithReceiver msg with
  | .ok (tx2, rx) => ({ rx := some rx, buffered := none }, tx2)
  | .error (.Full m) => ({ rx := none, buffered := some (tx, m) }, tx)
  | .error (.Closed _) => ({ rx := none, buffered := none }, tx)

/-- One dequeue step of the consumer loop: take the oldest queued
message. Modelled from the spec (glossary: the mailbox is a FIFO queue). -/
def AddressSender.dequeue (tx : AddressSender M) :
    Option (M × AddressSender M) :=
  match tx.queue with
  | [] => none
  | m :: rest => some (m, { tx with queue := rest })

/-- Dequeue repeatedly, up to the given number of steps. -/
def AddressSender.drainGo (fuel : Nat) (tx : AddressSender M) : List M :=
  match fuel with
  | 0 => []
  | Nat.succ fuel =>
    match tx.dequeue with
    | none => []
    | some p => p.1 :: AddressSender.drainGo fuel p.2

/-- Arrival order at the target: dequeue repeatedly until the mailbox is
empty (one step per queued message empties it). Modelled from the spec
(section 5: envelopes for a single target are processed in delivery
order, FIFO per queue). -/
def AddressSender.drainOrder (tx : AddressSender M) : List M :=
  AddressSender.drainGo tx.queue.length tx

/-- Send a whole list of messages in order through SyncAddress::send. -/
def SyncAddress.sendAll (tx : AddressSender M) (msgs : List M) :
    AddressSender M :=
  msgs.foldl (fun t m => (SyncAddress.send t m).2) tx

/-! Helper lemmas about handle and handleN. -/

theorem handle_of_msg_none (e : RemoteEnvelope M I E) (h : e.msg = none) :
    e.handle = ({ e with tx := none }, false, none) := by
  unfold RemoteEnvelope.handle
  split
  · rfl
  · simp [h]

theorem handle_invoked_msg (e : RemoteEnvelope M I E)
    (h : (e.handle).2.1 = true) : (e.handle).1.msg = none := by
  unfold RemoteEnvelope.handle at h ⊢
  cases hg : cancelGuard e.tx e.cancel_on_drop <;>
    cases hm : e.msg <;> simp_all

theorem handle_spawn_eq_invoked (e : RemoteEnvelope M I E) :
    ((e.handle).2.2).isSome = (e.handle).2.1 := by
  unfold RemoteEnvelope.handle
  split
  · rfl
  · cases hm : e.msg <;> simp [hm]

theorem handleN_of_msg_none (e : RemoteEnvelope M I E) (h : e.msg = none)
    (n : Nat) : (e.handleN n).2.1 = 0 ∧ (e.handleN n).2.2 = [] := by
  induction n generalizing e with
  | zero => exact ⟨rfl, rfl⟩
  | succ n ih =>
    have he := handle_of_msg_none e h
    have ih2 := ih { e with tx := none } h
    simp [RemoteEnvelope.handleN, he, ih2.1, ih2.2]

theorem handleN_inv_le_one (e : RemoteEnvelope M I E) (n : Nat) :
    (e.handleN n).2.1 ≤ 1 := by
  induction n generalizing e with
  | zero => simp [RemoteEnvelope.handleN]
  | succ n ih =>
    cases hb : (e.handle).2.1 with
    | true =>
      have hm := handle_invoked_msg e hb
      have h0 := handleN_of_msg_none (e.handle).1 hm n
      simp [RemoteEnvelope.handleN, hb, h0.1]
    | false =>
      simpa [RemoteEnvelope.handleN, hb] using ih (e.handle).1

theorem handleN_futures_len (e : RemoteEnvelope M I E) (n : Nat) :
    ((e.handleN n).2.2).length = (e.handleN n).2.1 := by
  induction n generalizing e with
  | zero => rfl
  | succ n ih =>
    have hs := handle_spawn_eq_invoked e
    cases hx : (e.handle).2.2 with
    | none =>
      have hb : (e.handle).2.1 = false := by rw [← hs, hx]; rfl
      simp [RemoteEnvelope.handleN, hx, hb, ih]
    | some f =>
      have hb : (e.handle).2.1 = true := by rw [← hs, hx]; rfl
      simp [RemoteEnvelope.handleN, hx, hb, ih]
      omega

/-! Helper lemmas about poll runs. -/

theorem poll_tx_none (o : PollOutcome I E) :
    (EnvelopFuture.poll { tx := none } o).1 =
      ({ tx := none } : EnvelopFuture I E) ∧
    (EnvelopFuture.poll { tx := none } o).2.1 = none := by
  cases o <;> simp [EnvelopFuture.poll]

theorem pollRun_tx_none (os : List (PollOutcome I E)) :
    pollRun ({ tx := none } : EnvelopFuture I E) os = 0 := by
  induction os with
  | nil => rfl
  | cons o os ih =>
    have h := poll_tx_none (I := I) (E := E) o
    simp [pollRun, h.1, h.2, ih]

theorem pollRun_le_one (f : EnvelopFuture I E)
    (os : List (PollOutcome I E)) : pollRun f os ≤ 1 := by
  induction os generalizing f with
  | nil => simp [pollRun]
  | cons o os ih =>
    cases ht : f.tx with
    | none =>
      have hf : f = { tx := none } := by cases f; simp_all
      rw [hf]
      rw [show pollRun ({ tx := none } : EnvelopFuture I E) (o :: os) = 0 from
        pollRun_tx_none (o :: os)]
      omega
    | some ch =>
      cases o with
      | ready v => simp [pollRun, EnvelopFuture.poll, ht, pollRun_tx_none]
      | notReady => simpa [pollRun, EnvelopFuture.poll] using ih f
      | failed err => simp [pollRun, EnvelopFuture.poll, ht, pollRun_tx_none]

/-- Claim C1: for every Envelope, across any sequence of calls to handle,
the handler dispatch is invoked at most once; a call that invokes the
handler takes the stored message out, so on the next call the payload is
absent and the handler is not invoked again. -/
theorem C1_at_most_once_delivery :
    (∀ (M I E : Type) (e : RemoteEnvelope M I E) (n : Nat),
       (e.handleN n).2.1 ≤ 1) ∧
    (∀ (M I E : Type) (e : RemoteEnvelope M I E),
       (e.handle).2.1 = true →
         (e.handle).1.msg = none ∧ ((e.handle).1.handle).2.1 = false) := by
  constructor
  · intro M I E e n
    exact handleN_inv_le_one e n
  · intro M I E e h
    have hm := handle_invoked_msg e h
    refine ⟨hm, ?_⟩
    rw [handle_of_msg_none _ hm]

def c1Env : RemoteEnvelope Nat Nat Unit :=
  { msg := some 0, tx := none, cancel_on_drop := true }

theorem C1_at_most_once_delivery_witness :
    (c1Env.handle).1.msg = none ∧ ((c1Env.handle).1.handle).2.1 = false :=
  C1_at_most_once_delivery.2 Nat Nat Unit c1Env (by decide)

/-- Claim C5: at most one value is ever sent into a reply sink over the
life of an envelope and its continuation — any sequence of handle calls
spawns at most one continuation, and a continuation performs at most one
send over any sequence of polls — and sending into a sink whose consumer
half has been dropped leaves the channel unchanged, the failure showing
up only in the discarded result, never as a panic or error. -/
theorem C5_reply_sink_at_most_one_send :
    (∀ (I E : Type) (f : EnvelopFuture I E) (os : List (PollOutcome I E)),
       pollRun f os ≤ 1) ∧
    (∀ (M I E : Type) (e : RemoteEnvelope M I E) (n : Nat),
       ((e.handleN n).2.2).length ≤ 1) ∧
    (∀ (α : Type) (r : Option α) (v : α),
       Oneshot.send { consumerDropped := true, received := r } v =
         ({ consumerDropped := true, received := r }, false)) := by
  refine ⟨fun I E f os => pollRun_le_one f os, fun M I E e n => ?_,
    fun α r v => rfl⟩
  rw [handleN_futures_len]
  exact handleN_inv_le_one e n

/-! Claims about the cancel_on_drop flag. -/

theorem handle_no_cancel (e : RemoteEnvelope M I E)
    (hc : e.cancel_on_drop = false) (m : M) (hm : e.msg = some m) :
    (e.handle).2.1 = true := by
  unfold RemoteEnvelope.handle
  simp [cancelGuard, hc, hm]

/-- Claim C9: every envelope records a cancel_on_drop flag fixed at
construction and the abandoned-consumer skip in handle applies only when
the flag is true: a skip on an envelope still carrying a message implies
the flag is set, an envelope with the flag false dispatches the handler
whenever a message is present (even when the reply consumer is gone), and
pack_msg builds envelopes with the flag set to true. -/
theorem C9_cancel_on_drop_flag :
    (∀ (M I E : Type) (e : RemoteEnvelope M I E),
       e.msg.isSome = true → (e.handle).2.1 = false →
       e.cancel_on_drop = true) ∧
    (∀ (M I E : Type) (e : RemoteEnvelope M I E),
       e.cancel_on_drop = false → e.msg.isSome = true →
       (e.handle).2.1 = true) ∧
    (∀ (M I E : Type) (msg : M) (tx : Option (Oneshot (Except E I))),
       (Context.pack_msg msg tx).cancel_on_drop = true) := by
  refine ⟨?_, ?_, fun M I E msg tx => rfl⟩
  · intro M I E e hm hinv
    cases hc : e.cancel_on_drop with
    | true => rfl
    | false =>
      obtain ⟨m, hm2⟩ := Option.isSome_iff_exists.mp hm
      rw [handle_no_cancel e hc m hm2] at hinv
      simp at hinv
  · intro M I E e hc hm
    obtain ⟨m, hm2⟩ := Option.isSome_iff_exists.mp hm
    exact handle_no_cancel e hc m hm2

def c9Env : RemoteEnvelope Nat Nat Unit :=
  { msg := some 0, tx := some { consumerDropped := true, received := none },
    cancel_on_drop := false }

theorem C9_cancel_on_drop_flag_witness : (c9Env.handle).2.1 = true :=
  C9_cancel_on_drop_flag.2.1 Nat Nat Unit c9Env rfl rfl

def c3Env : RemoteEnvelope Nat Nat Unit :=
  { msg := some 7, tx := some { consumerDropped := true, received := none },
    cancel_on_drop := false }

/-- Claim C3 fails as stated: c3Env carries a reply sink whose consumer
half is already dropped, yet handle invokes the handler, because the
envelope's cancel_on_drop flag is false. -/
theorem C3_counterexample :
    c3Env.tx = some { consumerDropped := true, received := none } ∧
    (c3Env.handle).2.1 = true :=
  ⟨rfl, rfl⟩

/-- Claim C3 amended: for every envelope carrying a reply sink whose
consumer half has already been dropped when handle is called, handle
returns without invoking the handler, provided the envelope's
cancel_on_drop flag is true; the address-module RemoteEnvelope has no
flag and always skips. -/
theorem C3_skip_when_consumer_dropped :
    (∀ (M I E : Type) (e : RemoteEnvelope M I E) (ch : Oneshot (Except E I)),
       e.cancel_on_drop = true → e.tx = some ch → ch.consumerDropped = true →
       e.handle = ({ e with tx := none }, false, none)) ∧
    (∀ (M I E : Type) (e : LocalEnvelope M I E) (ch : Oneshot (Except E I)),
       e.cancel_on_drop = true → e.tx = some ch → ch.consumerDropped = true →
       e.handle = ({ e with tx := none }, false, none)) ∧
    (∀ (M I E : Type) (e : AddrRemoteEnvelope M I E) (ch : Oneshot (Except E I)),
       e.tx = some ch → ch.consumerDropped = true →
       e.handle = ({ e with tx := none }, false, none)) := by
  refine ⟨?_, ?_, ?_⟩
  · intro M I E e ch hc ht hd
    unfold RemoteEnvelope.handle
    simp [cancelGuard, ht, hc, Oneshot.is_canceled, hd]
  · intro M I E e ch hc ht hd
    unfold LocalEnvelope.handle
    simp [cancelGuard, ht, hc, Oneshot.is_canceled, hd]
  · intro M I E e ch ht hd
    unfold AddrRemoteEnvelope.handle
    simp [ht, Oneshot.is_canceled, hd]

def c3AmendEnv : RemoteEnvelope Nat Nat Unit :=
  { msg := some 7, tx := some { consumerDropped := true, received := none },
    cancel_on_drop := true }

theorem C3_skip_when_consumer_dropped_witness :
    c3AmendEnv.handle = ({ c3AmendEnv with tx := none }, false, none) :=
  C3_skip_when_consumer_dropped.1 Nat Nat Unit c3AmendEnv
    { consumerDropped := true, received := none } rfl rfl rfl

/-- Claim C10: when handle returns early because the reply sink was
already canceled, it removes the sink but leaves the message in place; a
subsequent call to handle on the same envelope then invokes the handler,
with no reply sink attached, and only then is the payload taken out. -/
theorem C10_early_cancel_keeps_msg :
    ∀ (M I E : Type) (e : RemoteEnvelope M I E) (ch : Oneshot (Except E I))
      (m : M),
      e.cancel_on_drop = true → e.tx = some ch → ch.consumerDropped = true →
      e.msg = some m →
      (e.handle).2.1 = false ∧
      (e.handle).1.msg = some m ∧
      (e.handle).1.tx = none ∧
      ((e.handle).1.handle).2.1 = true ∧
      ((e.handle).1.handle).2.2 = some { tx := none } ∧
      ((e.handle).1.handle).1.msg = none := by
  intro M I E e ch m hc ht hd hm
  have h1 : e.handle = ({ e with tx := none }, false, none) := by
    unfold RemoteEnvelope.handle
    simp [cancelGuard, ht, hc, Oneshot.is_canceled, hd]
  have h2 : ({ e with tx := none } : RemoteEnvelope M I E).handle =
      ({ e with tx := none, msg := none }, true, some { tx := none }) := by
    unfold RemoteEnvelope.handle
    simp [cancelGuard, hm]
  rw [h1, h2]
  exact ⟨rfl, hm, rfl, rfl, rfl, rfl⟩

def c10Env : RemoteEnvelope Nat Nat Unit :=
  { msg := some 3, tx := some { consumerDropped := true, received := none },
    cancel_on_drop := true }

theorem C10_early_cancel_keeps_msg_witness :
    (c10Env.handle).2.1 = false ∧
    (c10Env.handle).1.msg = some 3 ∧
    (c10Env.handle).1.tx = none ∧
    ((c10Env.handle).1.handle).2.1 = true ∧
    ((c10Env.handle).1.handle).2.2 = some { tx := none } ∧
    ((c10Env.handle).1.handle).1.msg = none :=
  C10_early_cancel_keeps_msg Nat Nat Unit c10Env
    { consumerDropped := true, received := none } 3 rfl rfl rfl rfl

/-- Option::unwrap viewed as a fallible operation: unwrapping None is a
panic, reported as an error value instead of being ruled out
syntactically. -/
def optUnwrap (o : Option α) : Except Unit α :=
  match o with
  | some a => Except.ok a
  | none => Except.error ()

/-- RemoteEnvelope::handle with the unwrap in its guard treated as a
fallible step, following Rust's left-to-right short-circuit evaluation of
tx.is_some() && self.cancel_on_drop && tx.as_ref().unwrap().is_canceled();
an .error result would be a reachable panic. -/
def RemoteEnvelope.handleChecked (e : RemoteEnvelope M I E) :
    Except Unit (RemoteEnvelope M I E × Bool × Option (EnvelopFuture I E)) := do
  let g ←
    if e.tx.isSome then
      if e.cancel_on_drop then do
        let t ← optUnwrap e.tx
        pure t.is_canceled
      else pure false
    else pure false
  if g then
    pure ({ e with tx := none }, false, none)
  else
    match e.msg with
    | some _ => pure ({ e with tx := none, msg := none }, true,
        some { tx := e.tx })
    | none => pure ({ e with tx := none }, false, none)

/-- Claim C7: nothing in this core panics under backpressure or
disconnection. The unwrap inside handle is unreachable when the sink is
absent (handleChecked never yields the panic value and agrees with
handle), Full and Closed are always returned as values by try_send, and a
send into an abandoned reply sink leaves the channel unchanged and reports
the failure only in the discarded result. -/
theorem C7_no_panic :
    (∀ (M I E : Type) (e : RemoteEnvelope M I E),
       e.handleChecked = Except.ok e.handle) ∧
    (∀ (M : Type) (tx : AddressSender M) (m : M),
       (∃ tx2, SyncAddress.try_send tx m = Except.ok tx2) ∨
       SyncAddress.try_send tx m = Except.error (SendError.Full m) ∨
       SyncAddress.try_send tx m = Except.error (SendError.Closed m)) ∧
    (∀ (α : Type) (r : Option α) (v : α),
       Oneshot.send { consumerDropped := true, received := r } v =
         ({ consumerDropped := true, received := r }, false)) := by
  refine ⟨?_, ?_, fun α r v => rfl⟩
  · intro M I E e
    obtain ⟨msg, tx, cod⟩ := e
    cases tx with
    | none =>
      cases cod <;> cases msg <;>
        simp [RemoteEnvelope.handleChecked, RemoteEnvelope.handle,
          cancelGuard, optUnwrap] <;> rfl
    | some t =>
      obtain ⟨d, r⟩ := t
      cases d <;> cases cod <;> cases msg <;>
        simp [RemoteEnvelope.handleChecked, RemoteEnvelope.handle,
          cancelGuard, optUnwrap, Oneshot.is_canceled] <;> rfl
  · intro M tx m
    cases h1 : tx.closed <;> cases h2 : tx.isFull <;>
      simp [SyncAddress.try_send, AddressSender.try_send, h1, h2]

/-- Claim C2: the Request returned by call (and the RequestFut returned by
call_fut) is in exactly one of three states, determined by the immediate
enqueue outcome: on success it holds the reply channel's consumer half,
on Full it buffers the (sender, message) pair for a later retry, and on
Closed it holds neither — the state the spec calls Failed, which yields a
terminal delivery failure immediately. -/
theorem C2_call_three_states :
    ∀ (M : Type) (tx : AddressSender M) (m : M),
      (tx.closed = true →
        (SyncAddress.call tx m).1.rx = none ∧
        (SyncAddress.call tx m).1.buffered = none ∧
        (SyncAddress.call tx m).1.isFailedTerminal = true ∧
        (SyncAddress.call_fut tx m).1.rx = none ∧
        (SyncAddress.call_fut tx m).1.buffered = none) ∧
      (tx.closed = false → tx.isFull = true →
        (SyncAddress.call tx m).1.rx = none ∧
        (SyncAddress.call tx m).1.buffered = some (tx, m) ∧
        (SyncAddress.call_fut tx m).1.rx = none ∧
        (SyncAddress.call_fut tx m).1.buffered = some (tx, m)) ∧
      (tx.closed = false → tx.isFull = false →
        (SyncAddress.call tx m).1.rx = some { forMsg := m } ∧
        (SyncAddress.call tx m).1.buffered = none ∧
        (SyncAddress.call_fut tx m).1.rx = some { forMsg := m } ∧
        (SyncAddress.call_fut tx m).1.buffered = none) := by
  intro M tx m
  refine ⟨fun h1 => ?_, fun h1 h2 => ?_, fun h1 h2 => ?_⟩ <;>
    simp [SyncAddress.call, SyncAddress.call_fut,
      AddressSender.sendWithReceiver, Request.isFailedTerminal, *]

def c2Tx : AddressSender Nat :=
  { queue := [], capacity := some 1, closed := true }

theorem C2_call_three_states_witness :
    (SyncAddress.call c2Tx 5).1.rx = none ∧
    (SyncAddress.call c2Tx 5).1.buffered = none ∧
    (SyncAddress.call c2Tx 5).1.isFailedTerminal = true ∧
    (SyncAddress.call_fut c2Tx 5).1.rx = none ∧
    (SyncAddress.call_fut c2Tx 5).1.buffered = none :=
  (C2_call_three_states Nat c2Tx 5).1 rfl

/-- Claim C4: try_send on a cross-thread address either enqueues the
message at the back of the queue and returns Ok, or fails with Full(msg)
when the channel is at capacity or Closed(msg) when the consumer is gone,
the original message coming back intact inside the error in both failure
cases. -/
theorem C4_try_send_outcomes :
    ∀ (M : Type) (tx : AddressSender M) (m : M),
      (tx.closed = true →
        SyncAddress.try_send tx m = Except.error (SendError.Closed m)) ∧
      (tx.closed = false → tx.isFull = true →
        SyncAddress.try_send tx m = Except.error (SendError.Full m)) ∧
      (tx.closed = false → tx.isFull = false →
        SyncAddress.try_send tx m =
          Except.ok { tx with queue := tx.queue ++ [m] }) := by
  intro M tx m
  refine ⟨fun h1 => ?_, fun h1 h2 => ?_, fun h1 h2 => ?_⟩ <;>
    simp [SyncAddress.try_send, AddressSender.try_send, *]

def c4Tx : AddressSender Nat :=
  { queue := [9], capacity := some 1, closed := false }

theorem C4_try_send_outcomes_witness :
    SyncAddress.try_send c4Tx 5 = Except.error (SendError.Full 5) :=
  (C4_try_send_outcomes Nat c4Tx 5).2.1 rfl rfl

/-- Claim C6: send returns unit and never surfaces a failure to the
caller: the do_send result is discarded, so the caller-visible outcome is
the same unit value whether the message was enqueued (channel open,
capacity ignored) or silently dropped (channel closed). -/
theorem C6_send_fire_and_forget :
    ∀ (M : Type) (tx : AddressSender M) (m : M),
      (SyncAddress.send tx m).1 = () ∧
      (tx.closed = true → (SyncAddress.send tx m).2 = tx) ∧
      (tx.closed = false →
        (SyncAddress.send tx m).2 = { tx with queue := tx.queue ++ [m] }) := by
  intro M tx m
  refine ⟨rfl, fun h1 => ?_, fun h1 => ?_⟩ <;>
    simp [SyncAddress.send, AddressSender.do_send, *]

def c6Tx : AddressSender Nat :=
  { queue := [], capacity := some 1, closed := true }

theorem C6_send_fire_and_forget_witness :
    (SyncAddress.send c6Tx 5).2 = c6Tx :=
  (C6_send_fire_and_forget Nat c6Tx 5).2.1 rfl

/-! FIFO ordering through a single channel. -/

theorem drainGo_eq (q : List M) (cap : Option Nat) (cl : Bool) :
    AddressSender.drainGo q.length
      { queue := q, capacity := cap, closed := cl } = q := by
  induction q with
  | nil => rfl
  | cons a rest ih =>
    simp [AddressSender.drainGo, AddressSender.dequeue, ih]

theorem drainOrder_eq_queue (tx : AddressSender M) :
    tx.drainOrder = tx.queue := by
  obtain ⟨q, cap, cl⟩ := tx
  unfold AddressSender.drainOrder
  exact drainGo_eq q cap cl

theorem send_open (tx : AddressSender M) (m : M) (h : tx.closed = false) :
    (SyncAddress.send tx m).2 = { tx with queue := tx.queue ++ [m] } := by
  simp [SyncAddress.send, AddressSender.do_send, h]

theorem sendAll_open (tx : AddressSender M) (msgs : List M)
    (h : tx.closed = false) :
    SyncAddress.sendAll tx msgs = { tx with queue := tx.queue ++ msgs } := by
  induction msgs generalizing tx with
  | nil => simp [SyncAddress.sendAll]
  | cons m ms ih =>
    have h2 : ({ tx with queue := tx.queue ++ [m] } :
        AddressSender M).closed = false := h
    calc SyncAddress.sendAll tx (m :: ms)
        = SyncAddress.sendAll { tx with queue := tx.queue ++ [m] } ms := by
          simp [SyncAddress.sendAll, send_open tx m h]
      _ = { tx with queue := (tx.queue ++ [m]) ++ ms } := ih _ h2
      _ = { tx with queue := tx.queue ++ (m :: ms) } := by simp

/-- Claim C8: messages sent in order through one address over an open
channel are dequeued and delivered in the same order they were enqueued:
the arrival order at the target is the prior queue contents followed by
the sent messages, in sending order. -/
theorem C8_fifo_order :
    ∀ (M : Type) (tx : AddressSender M) (msgs : List M),
      tx.closed = false →
      (SyncAddress.sendAll tx msgs).drainOrder = tx.queue ++ msgs := by
  intro M tx msgs h
  rw [sendAll_open tx msgs h, drainOrder_eq_queue]

def c8Tx : AddressSender Nat :=
  { queue := [], capacity := none, closed := false }

theorem C8_fifo_order_witness :
    (SyncAddress.sendAll c8Tx [1, 2, 3]).drainOrder = c8Tx.queue ++ [1, 2, 3] :=
  C8_fifo_order Nat c8Tx [1, 2, 3] rfl
